import Mathlib

/-!
# Verification of the Condition Alerting & Trend Engine

Shallow embedding of the analysis layer of the climate-analytics repository:
`src/analysis/alert_system.py` (threshold evaluator, trend detector) and
`src/analysis/correlation_analyzer.py` (correlation engine).

Modelling conventions:
* Python floats are embedded as exact rationals (`ℚ`); the code performs only
  comparisons, sums, products and one division, all exact on the inputs the
  claims range over.
* Nullable fields (`None` / SQL NULL / pandas `NaN`) are `Option ℚ`; a float
  `NaN` produced by a statistics routine is `none`.
* Wall-clock data (alert `id` containing a timestamp, `timestamp`,
  `expires_at`, the interpolated `description` string) is omitted from the
  `Alert` record: no claim mentions those fields and they depend on the clock.
* Exceptions raised by the storage layer are modelled with `Except`; a pure
  Lean function cannot raise, so `try/except` blocks become `match` on the
  `Except`-valued input.
* A Pearson correlation coefficient r = cov / sqrt(varx * vary) is generally
  irrational; it is represented exactly by its sufficient statistics
  (`PearsonStat`, the scaled centered sums), and every comparison the source
  makes on r (`abs r >= t`, `r > 0`, key ordering in sorts) is expressed as
  the equivalent exact polynomial comparison on the statistics.
-/

namespace ClimateAnalytics

/-- `AlertLevel` enum from alert_system.py. -/
inductive AlertLevel where
  | info
  | warning
  | critical
  | emergency
deriving DecidableEq, Repr

/-- Total severity order used by the spec (info < warning < critical < emergency). -/
def AlertLevel.rank : AlertLevel → Nat
  | .info => 0
  | .warning => 1
  | .critical => 2
  | .emergency => 3

/-- `AlertType` enum from alert_system.py. -/
inductive AlertType where
  | air_quality
  | temperature
  | humidity
  | wind
  | pressure
  | trend_anomaly
deriving DecidableEq, Repr

/-- The `Alert` dataclass, without the clock-dependent fields
(`id`, `description`, `timestamp`, `expires_at`). -/
structure Alert where
  alert_type : AlertType
  level : AlertLevel
  title : String
  location : String
  value : ℚ
  threshold : ℚ
  recommendations : List String
deriving DecidableEq, Repr

/-- The `self.thresholds` dict built in `ClimateAlertSystem.__init__`. -/
structure Thresholds where
  aqi_moderate : ℚ
  aqi_unhealthy_sensitive : ℚ
  aqi_unhealthy : ℚ
  aqi_very_unhealthy : ℚ
  aqi_hazardous : ℚ
  temp_extreme_low : ℚ
  temp_extreme_high : ℚ
  humidity_very_low : ℚ
  humidity_very_high : ℚ
  wind_strong : ℚ
  wind_extreme : ℚ
  pressure_very_low : ℚ
  pressure_very_high : ℚ
deriving DecidableEq, Repr

/-- The default threshold table from `__init__`. -/
def defaultThresholds : Thresholds where
  aqi_moderate := 51
  aqi_unhealthy_sensitive := 101
  aqi_unhealthy := 151
  aqi_very_unhealthy := 201
  aqi_hazardous := 301
  temp_extreme_low := -10
  temp_extreme_high := 40
  humidity_very_low := 20
  humidity_very_high := 90
  wind_strong := 15
  wind_extreme := 25
  pressure_very_low := 980
  pressure_very_high := 1030

/-- One row of latest/historical data, as produced by `_get_latest_data` /
`_get_historical_data`: every key is present, values may be NULL. -/
structure Reading where
  city : Option String := none
  country : Option String := none
  temperature : Option ℚ := none
  humidity : Option ℚ := none
  pressure : Option ℚ := none
  wind_speed : Option ℚ := none
  aqi_us : Option ℚ := none
deriving DecidableEq, Repr

/-- The f-string `f"{data.get('city', 'Local')}, {data.get('country', '')}"`. -/
def locationOf (d : Reading) : String :=
  d.city.getD "Local" ++ ", " ++ d.country.getD ""

/-- The `recommendations` dict local to `_analyze_air_quality`. -/
def aqiRecommendations (key : String) : List String :=
  if key = "moderate" then
    ["Pessoas sensíveis devem considerar reduzir atividades ao ar livre",
     "Monitore sintomas se você tem problemas respiratórios"]
  else if key = "unhealthy_sensitive" then
    ["Pessoas com doenças cardíacas ou pulmonares devem evitar atividades externas",
     "Idosos e crianças devem limitar tempo ao ar livre",
     "Use máscaras de proteção se necessário sair"]
  else if key = "unhealthy" then
    ["Todos devem evitar atividades ao ar livre prolongadas",
     "Use máscaras de proteção N95 ou superiores",
     "Mantenha janelas fechadas e use purificadores de ar"]
  else if key = "very_unhealthy" then
    ["Evite todas as atividades ao ar livre",
     "Pessoas sensíveis devem permanecer em ambientes fechados",
     "Procure atendimento médico se sentir sintomas respiratórios"]
  else if key = "hazardous" then
    ["EMERGÊNCIA: Evite completamente exposição ao ar livre",
     "Procure abrigo em ambiente fechado imediatamente",
     "Contate serviços de emergência se necessário"]
  else []

/-- `ClimateAlertSystem._analyze_air_quality`.  The guard
`if 'aqi_us' not in data or not data['aqi_us']` uses Python truthiness:
a missing key, `None`, and the float `0.0` all take the early return.
The cascade of `if/elif` on the five AQI cut points emits at most one alert. -/
def analyze_air_quality (th : Thresholds) (data : Reading) : List Alert :=
  match data.aqi_us with
  | none => []
  | some aqi =>
    if aqi = 0 then []  -- `not data['aqi_us']` is True for 0.0
    else
      let location := locationOf data
      if th.aqi_hazardous ≤ aqi then
        [{ alert_type := .air_quality, level := .emergency,
           title := "🚨 QUALIDADE DO AR PERIGOSA",
           location := location, value := aqi, threshold := th.aqi_hazardous,
           recommendations := aqiRecommendations "hazardous" }]
      else if th.aqi_very_unhealthy ≤ aqi then
        [{ alert_type := .air_quality, level := .critical,
           title := "⚠️ QUALIDADE DO AR MUITO PREJUDICIAL",
           location := location, value := aqi, threshold := th.aqi_very_unhealthy,
           recommendations := aqiRecommendations "very_unhealthy" }]
      else if th.aqi_unhealthy ≤ aqi then
        [{ alert_type := .air_quality, level := .critical,
           title := "⚠️ QUALIDADE DO AR PREJUDICIAL",
           location := location, value := aqi, threshold := th.aqi_unhealthy,
           recommendations := aqiRecommendations "unhealthy" }]
      else if th.aqi_unhealthy_sensitive ≤ aqi then
        [{ alert_type := .air_quality, level := .warning,
           title := "⚠️ QUALIDADE DO AR PREJUDICIAL PARA GRUPOS SENSÍVEIS",
           location := location, value := aqi, threshold := th.aqi_unhealthy_sensitive,
           recommendations := aqiRecommendations "unhealthy_sensitive" }]
      else if th.aqi_moderate ≤ aqi then
        [{ alert_type := .air_quality, level := .info,
           title := "ℹ️ QUALIDADE DO AR MODERADA",
           location := location, value := aqi, threshold := th.aqi_moderate,
           recommendations := aqiRecommendations "moderate" }]
      else []

/-- The high-temperature alert built in `_analyze_weather_conditions`. -/
def tempHighAlert (th : Thresholds) (location : String) (temp : ℚ) : Alert where
  alert_type := .temperature
  level := .warning
  title := "🌡️ TEMPERATURA EXTREMAMENTE ALTA"
  location := location
  value := temp
  threshold := th.temp_extreme_high
  recommendations :=
    ["Evite exposição prolongada ao sol",
     "Mantenha-se hidratado",
     "Use roupas leves e protetor solar",
     "Procure ambientes climatizados"]

/-- The low-temperature alert built in `_analyze_weather_conditions`. -/
def tempLowAlert (th : Thresholds) (location : String) (temp : ℚ) : Alert where
  alert_type := .temperature
  level := .warning
  title := "🧊 TEMPERATURA EXTREMAMENTE BAIXA"
  location := location
  value := temp
  threshold := th.temp_extreme_low
  recommendations :=
    ["Use roupas adequadas para o frio",
     "Evite exposição prolongada",
     "Proteja extremidades do corpo",
     "Mantenha-se aquecido"]

/-- The extreme-wind alert built in `_analyze_weather_conditions`. -/
def windExtremeAlert (th : Thresholds) (location : String) (wind : ℚ) : Alert where
  alert_type := .wind
  level := .critical
  title := "💨 VENTOS EXTREMOS"
  location := location
  value := wind
  threshold := th.wind_extreme
  recommendations :=
    ["Evite atividades ao ar livre",
     "Cuidado com objetos que podem voar",
     "Evite áreas com árvores ou estruturas altas",
     "Dirija com extrema cautela"]

/-- The strong-wind alert built in `_analyze_weather_conditions`. -/
def windStrongAlert (th : Thresholds) (location : String) (wind : ℚ) : Alert where
  alert_type := .wind
  level := .warning
  title := "💨 VENTOS FORTES"
  location := location
  value := wind
  threshold := th.wind_strong
  recommendations :=
    ["Tenha cuidado ao caminhar",
     "Dirija com atenção",
     "Fixe objetos soltos"]

/-- `ClimateAlertSystem._analyze_weather_conditions`.  Both the temperature
block and the wind block are `if/elif` cascades, so each block contributes at
most one alert; the blocks are independent of each other. -/
def analyze_weather_conditions (th : Thresholds) (data : Reading) : List Alert :=
  let location := locationOf data
  let tempAlerts : List Alert :=
    match data.temperature with
    | none => []
    | some temp =>
      if th.temp_extreme_high ≤ temp then [tempHighAlert th location temp]
      else if temp ≤ th.temp_extreme_low then [tempLowAlert th location temp]
      else []
  let windAlerts : List Alert :=
    match data.wind_speed with
    | none => []
    | some wind =>
      if th.wind_extreme ≤ wind then [windExtremeAlert th location wind]
      else if th.wind_strong ≤ wind then [windStrongAlert th location wind]
      else []
  tempAlerts ++ windAlerts

/-! ## Trend detector (`_analyze_trends`, `_calculate_trend`) -/

/-- Exact degree-1 least-squares slope of `ys` against index positions
`0, 1, ..., n-1`: the value `np.polyfit(np.arange(n), ys, 1)[0]` computes in
floating point.  Closed form: `(n·Σ i·yᵢ − (Σ i)(Σ yᵢ)) / (n·Σ i² − (Σ i)²)`.
For `n ≥ 2` the denominator is positive. -/
def polyfitSlope (ys : List ℚ) : ℚ :=
  let n : ℚ := ys.length
  let idx : List ℚ := (List.range ys.length).map (fun i => (i : ℚ))
  let sx : ℚ := idx.sum
  let sxx : ℚ := (idx.map (fun x => x * x)).sum
  let sy : ℚ := ys.sum
  let sxy : ℚ := ((idx.zip ys).map (fun p => p.1 * p.2)).sum
  (n * sxy - sx * sy) / (n * sxx - sx * sx)

/-- `ClimateAlertSystem._calculate_trend`: 0 for fewer than 2 points, else
fitted slope times series length ("total drift over the window"). -/
def calculate_trend (series : List ℚ) : ℚ :=
  if series.length < 2 then 0
  else polyfitSlope series * series.length

/-- The trend-anomaly alert built in `_analyze_trends`. -/
def aqiTrendAlert (location : Option String) (trend : ℚ) : Alert where
  alert_type := .trend_anomaly
  level := .warning
  title := "📈 TENDÊNCIA DE PIORA NA QUALIDADE DO AR"
  location := location.getD "Geral"
  value := trend
  threshold := 20
  recommendations :=
    ["Monitore mais de perto a qualidade do ar",
     "Considere ajustar atividades ao ar livre",
     "Verifique previsões meteorológicas"]

/-- `ClimateAlertSystem._analyze_trends`, applied to an already-loaded batch of
historical rows.  Fewer than 5 rows: no alert.  Otherwise the AQI column is
null-dropped (`df['aqi_us'].dropna()`), the total drift is computed, and a
single warning alert fires iff the drift strictly exceeds 20. -/
def analyze_trends (location : Option String) (historical : List Reading) : List Alert :=
  if historical.length < 5 then []
  else
    let series := historical.filterMap (·.aqi_us)
    let aqi_trend := calculate_trend series
    if 20 < aqi_trend then [aqiTrendAlert location aqi_trend] else []

/-! ## Top-level evaluation (`analyze_current_conditions`)

The storage layer (`_get_latest_data`, `_get_historical_data`) is modelled by
`Except`-valued inputs: `.error e` stands for an exception raised inside the
sqlite access.  Both helpers catch their own exceptions and return an empty
dict / empty list, which is what the `match` arms reproduce. -/

/-- `_get_latest_data`: on storage failure or no row, the Python function
returns `{}` (here `none`). -/
def get_latest_data (dbResult : Except String (Option Reading)) : Option Reading :=
  match dbResult with
  | .error _ => none
  | .ok r => r

/-- `_get_historical_data`: on storage failure the Python function returns `[]`. -/
def get_historical_data (dbResult : Except String (List Reading)) : List Reading :=
  match dbResult with
  | .error _ => []
  | .ok rows => rows

/-- `ClimateAlertSystem.analyze_current_conditions`.  A total function: the
body's `try/except` can only be reached by storage exceptions, which the two
`_get_*` helpers already convert to empty results; an empty latest reading
(`if not latest_data`) short-circuits to the empty alert list. -/
def analyze_current_conditions (th : Thresholds) (location : Option String)
    (latestDb : Except String (Option Reading))
    (histDb : Except String (List Reading)) : List Alert :=
  match get_latest_data latestDb with
  | none => []
  | some latest =>
      analyze_air_quality th latest
        ++ analyze_weather_conditions th latest
        ++ analyze_trends location (get_historical_data histDb)

/-! ## Correlation engine (`correlation_analyzer.py`)

A Pearson coefficient is represented by its exact sufficient statistics.
For paired samples `(xᵢ, yᵢ)`, `i < n`, set

  `cov  := n·Σ xᵢyᵢ − (Σ xᵢ)(Σ yᵢ)`,
  `varx := n·Σ xᵢ² − (Σ xᵢ)²`,
  `vary := n·Σ yᵢ² − (Σ yᵢ)²`.

Then `r = cov / sqrt(varx · vary)`, with `varx, vary ≥ 0`, and `r` is a real
number (NaN when `varx·vary = 0`).  All comparisons the source performs on
floating-point `r` values translate to exact polynomial comparisons below. -/

/-- Exact sufficient statistics of a Pearson correlation coefficient. -/
structure PearsonStat where
  cov : ℚ
  varx : ℚ
  vary : ℚ
deriving DecidableEq, Repr

/-- The real value `|r|² = cov²/(varx·vary)` as an exact rational (meaningful
when `varx·vary > 0`, which holds for every non-NaN matrix entry). -/
def PearsonStat.absSq (s : PearsonStat) : ℚ :=
  s.cov ^ 2 / (s.varx * s.vary)

/-- `abs(r) >= t` for `t ≥ 0`, expressed on the statistics:
`t²·varx·vary ≤ cov²`. -/
def PearsonStat.absGe (s : PearsonStat) (t : ℚ) : Bool :=
  t ^ 2 * (s.varx * s.vary) ≤ s.cov ^ 2

/-- `abs(r₁) < abs(r₂)` on the statistics (valid when both variance products
are positive): `cov₁²·varx₂·vary₂ < cov₂²·varx₁·vary₁`. -/
def statAbsLt (a b : PearsonStat) : Bool :=
  a.cov ^ 2 * (b.varx * b.vary) < b.cov ^ 2 * (a.varx * a.vary)

/-- A correlation matrix (`df[numeric_cols].corr()`): named columns plus the
entry grid; `none` models a `NaN` entry (insufficient pairwise-complete data
or a zero-variance column). -/
structure CorrMatrix where
  cols : List String
  entries : List (List (Option PearsonStat))
deriving DecidableEq, Repr

/-- `corr_matrix.iloc[i, j]`. -/
def CorrMatrix.entry (m : CorrMatrix) (i j : Nat) : Option PearsonStat :=
  (m.entries.getD i []).getD j none

/-- One element of the `strong_corrs` list of `_find_strong_correlations`. -/
structure StrongCorr where
  var1 : String
  var2 : String
  correlation : PearsonStat
  strength : String
  direction : String
deriving DecidableEq, Repr

/-- Stable insertion step for a descending sort: `x` is placed before the
first element `y` with `lt y x`, i.e. after every element whose key is ≥ the
key of `x` — exactly the placement a stable descending sort gives the element
arriving last. -/
def insertDescBy (lt : α → α → Bool) (x : α) : List α → List α
  | [] => [x]
  | y :: ys => if lt y x then x :: y :: ys else y :: insertDescBy lt x ys

/-- Stable descending insertion sort; models Python's stable
`list.sort(key=..., reverse=True)`. -/
def sortDescBy (lt : α → α → Bool) (l : List α) : List α :=
  l.foldl (fun acc x => insertDescBy lt x acc) []

/-- The record built for a qualifying pair `(i, j)` in
`_find_strong_correlations`. -/
def mkStrongCorr (m : CorrMatrix) (i j : Nat) (s : PearsonStat) : StrongCorr where
  var1 := m.cols.getD i ""
  var2 := m.cols.getD j ""
  correlation := s
  strength := if s.absGe (4/5) then "strong" else "moderate"
  direction := if 0 < s.cov then "positive" else "negative"

/-- The `strong_corrs` accumulator of `_find_strong_correlations` before the
final sort: scan the upper triangle with the source's loop order
(`for i in range(n): for j in range(i+1, n)`), keep pairs with
`abs(r) ≥ threshold` (false for a NaN entry, as in floating point), and tag
strength and direction. -/
def rawStrongCorrs (m : CorrMatrix) (threshold : ℚ) : List StrongCorr :=
  (List.range m.cols.length).flatMap (fun i =>
    ((List.range m.cols.length).drop (i + 1)).filterMap (fun j =>
      match m.entry i j with
      | none => none
      | some s => if s.absGe threshold then some (mkStrongCorr m i j s) else none))

/-- `CorrelationAnalyzer._find_strong_correlations`: the scan above followed
by Python's stable `sort(key=lambda x: abs(x['correlation']), reverse=True)`. -/
def find_strong_correlations (m : CorrMatrix) (threshold : ℚ) : List StrongCorr :=
  sortDescBy (fun a b => statAbsLt a.correlation b.correlation) (rawStrongCorrs m threshold)

/-- The claim's reading of the tie-break order, stated in its own words:
identical filtering, tagging and stable sort, but with the upper triangle
enumerated column-major (`for j: for i in range(j)`).  Used only to compare
against `find_strong_correlations`. -/
def findStrongColMajorClaim (m : CorrMatrix) (threshold : ℚ) : List StrongCorr :=
  let n := m.cols.length
  let strong_corrs :=
    (List.range n).flatMap (fun j =>
      (List.range j).filterMap (fun i =>
        match m.entry i j with
        | none => none
        | some s => if s.absGe threshold then some (mkStrongCorr m i j s) else none))
  sortDescBy (fun a b => statAbsLt a.correlation b.correlation) strong_corrs

/-! ## DataFrame model and `analyze_correlations` -/

/-- The slice of a pandas DataFrame the correlation engine reads: the numeric
columns by name (row-aligned, nullable cells) plus a flag recording whether a
`timestamp` column exists (`_analyze_temporal_patterns` only tests for its
presence before doing unclaimed float statistics). -/
structure DataFrame where
  colNames : List String
  rows : List (List (Option ℚ))
  hasTimestamp : Bool := false
deriving DecidableEq, Repr

/-- Column extraction `df[name]`; empty when the column is absent. -/
def DataFrame.getCol (df : DataFrame) (name : String) : List (Option ℚ) :=
  match df.colNames.findIdx? (· = name) with
  | none => []
  | some i => df.rows.map (fun r => r.getD i none)

/-- Lines 131-132 of `analyze_correlations`: numeric columns minus the
identifier-like `hour` / `day_of_week` columns. -/
def DataFrame.numericCols (df : DataFrame) : List String :=
  df.colNames.filter (fun c => c ≠ "hour" ∧ c ≠ "day_of_week")

/-- Pearson sufficient statistics of a list of complete pairs. -/
def pearsonStatOf (ps : List (ℚ × ℚ)) : PearsonStat where
  cov := ps.length * (ps.map (fun p => p.1 * p.2)).sum
           - (ps.map Prod.fst).sum * (ps.map Prod.snd).sum
  varx := ps.length * (ps.map (fun p => p.1 * p.1)).sum - (ps.map Prod.fst).sum ^ 2
  vary := ps.length * (ps.map (fun p => p.2 * p.2)).sum - (ps.map Prod.snd).sum ^ 2

/-- The complete pairs of two nullable columns (pandas `corr` computes each
entry on the pairwise-complete observations of the two columns). -/
def completePairs (xs ys : List (Option ℚ)) : List (ℚ × ℚ) :=
  (xs.zip ys).filterMap (fun p =>
    match p with
    | (some a, some b) => some (a, b)
    | _ => none)

/-- One entry of `df[numeric_cols].corr()`: Pearson statistics over the
pairwise-complete observations, `none` (NaN) when either column has zero
variance there (which covers fewer than 2 complete pairs). -/
def corrEntryOf (xs ys : List (Option ℚ)) : Option PearsonStat :=
  let s := pearsonStatOf (completePairs xs ys)
  if s.varx = 0 ∨ s.vary = 0 then none else some s

/-- `df[numeric_cols].corr()` as a `CorrMatrix`. -/
def corrMatrixOf (df : DataFrame) (numeric_cols : List String) : CorrMatrix where
  cols := numeric_cols
  entries := numeric_cols.map (fun a =>
    numeric_cols.map (fun b => corrEntryOf (df.getCol a) (df.getCol b)))

/-- One value of the `correlations` dict in `_analyze_aqi_correlations`:
`scipy.stats.pearsonr` output plus the significance flag.  `stat`/`p_value`
are `none` when scipy returns `(nan, nan)` — any NaN among the inputs, or a
constant input column; `NaN < 0.05` is `False` in Python, so `significant`
is then `false`. -/
structure FactorCorr where
  stat : Option PearsonStat
  p_value : Option ℚ
  significant : Bool
deriving DecidableEq, Repr

/-- All pairs of two zipped nullable columns when every cell is present,
`none` as soon as any cell is missing (a float NaN poisons the whole
`scipy.stats.pearsonr` computation). -/
def allSomePairs : List (Option ℚ × Option ℚ) → Option (List (ℚ × ℚ))
  | [] => some []
  | (some a, some b) :: rest => (allSomePairs rest).map (fun l => (a, b) :: l)
  | _ :: _ => none

/-- `scipy.stats.pearsonr` on two equal-length nullable columns, parameterised
by `pfun`, the two-sided p-value scipy derives from the statistics and the
sample count (a beta-distribution tail, not exactly representable; the source
only stores it and compares it with 0.05).  A NaN among the inputs, or a
constant input column, yields `(nan, nan)`, modelled as the `none` fields;
Python's `nan < 0.05` is `False`, so `significant` is then `false`. -/
def pearsonrModel (pfun : PearsonStat → Nat → ℚ) (xs ys : List (Option ℚ)) : FactorCorr :=
  match allSomePairs (xs.zip ys) with
  | none => { stat := none, p_value := none, significant := false }
  | some ps =>
    let s := pearsonStatOf ps
    if s.varx = 0 ∨ s.vary = 0 then
      { stat := none, p_value := none, significant := false }
    else
      let p := pfun s ps.length
      { stat := some s, p_value := some p, significant := decide (p < 1/20) }

/-- Result of `_analyze_aqi_correlations`.  The `by_time_period`,
`by_temperature` and `top_factors` entries are omitted: no claim mentions
them and they involve group-by standard deviations (irrational) and Python
sorting on possibly-NaN float keys. -/
structure AqiAnalysis where
  error : Option String
  weather_correlations : Option (List (String × FactorCorr))
deriving DecidableEq, Repr

/-- The fixed candidate-predictor list `weather_factors`. -/
def weatherFactors : List String :=
  ["temperature", "humidity", "pressure", "wind_speed", "clouds"]

/-- `CorrelationAnalyzer._analyze_aqi_correlations`.  Note the null handling
of the source: `df.dropna(subset=['aqi_us'])` drops only rows whose AQI cell
is null; a null in a predictor column survives into `stats.pearsonr`, which
then returns NaN. -/
def analyze_aqi_correlations (pfun : PearsonStat → Nat → ℚ) (df : DataFrame) : AqiAnalysis :=
  if "aqi_us" ∉ df.colNames ∨ (df.getCol "aqi_us").all (·.isNone) then
    { error := some "Dados de AQI não disponíveis", weather_correlations := none }
  else
    match df.colNames.findIdx? (· = "aqi_us") with
    | none => { error := some "Dados de AQI não disponíveis", weather_correlations := none }
    | some aqiIdx =>
      let df_clean : DataFrame :=
        { df with rows := df.rows.filter (fun r => (r.getD aqiIdx none).isSome) }
      if df_clean.rows.length < 10 then
        { error := some "Dados insuficientes para análise de AQI", weather_correlations := none }
      else
        let correlations := weatherFactors.filterMap (fun factor =>
          if factor ∈ df_clean.colNames then
            some (factor, pearsonrModel pfun (df_clean.getCol "aqi_us") (df_clean.getCol factor))
          else none)
        { error := none, weather_correlations := some correlations }

/-- The claim's reading of the per-factor test, in its own words: rows with a
null in either the AQI column or the predictor column are dropped pairwise
before the Pearson test is computed.  Used only to compare against
`analyze_aqi_correlations`. -/
def aqiPairwiseClaim (pfun : PearsonStat → Nat → ℚ) (df : DataFrame) (factor : String) : FactorCorr :=
  let ps := completePairs (df.getCol "aqi_us") (df.getCol factor)
  let s := pearsonStatOf ps
  if s.varx = 0 ∨ s.vary = 0 then
    { stat := none, p_value := none, significant := false }
  else
    let p := pfun s ps.length
    { stat := some s, p_value := some p, significant := decide (p < 1/20) }

/-- Result of `_perform_clustering`.  The guard logic (dropna on the selected
numeric columns, the `< 10` row check) and the cluster count are modelled; the
KMeans cluster statistics and silhouette score are floating-point iterative
output no claim refers to, and are omitted. -/
structure ClusterOk where
  n_clusters : Nat
deriving DecidableEq, Repr

/-- `K_range = range(2, min(8, len(df_clean)//2))`, then
`optimal_k = 3 if len(K_range) >= 2 else 2`. -/
def optimalK (cleanLen : Nat) : Nat :=
  let kRangeLen := min 8 (cleanLen / 2) - 2
  if 2 ≤ kRangeLen then 3 else 2

/-- Rows of `df[numeric_cols].dropna()`: rows complete on the given columns. -/
def DataFrame.dropnaRows (df : DataFrame) (cols : List String) : List (List (Option ℚ)) :=
  let idxs := cols.filterMap (fun c => df.colNames.findIdx? (· = c))
  df.rows.filter (fun r => idxs.all (fun i => (r.getD i none).isSome))

/-- `CorrelationAnalyzer._perform_clustering` (guards and cluster count). -/
def perform_clustering (df : DataFrame) (numeric_cols : List String) : Except String ClusterOk :=
  let clean := df.dropnaRows numeric_cols
  if clean.length < 10 then .error "Dados insuficientes para clustering"
  else .ok { n_clusters := optimalK clean.length }

/-- Result marker of `_perform_pca`; the explained-variance ratios are
floating-point SVD output no claim refers to, and are omitted. -/
structure PcaOk where
  n_input_cols : Nat
deriving DecidableEq, Repr

/-- `CorrelationAnalyzer._perform_pca` (guards). -/
def perform_pca (df : DataFrame) (numeric_cols : List String) : Except String PcaOk :=
  let clean := df.dropnaRows numeric_cols
  if clean.length < 10 ∨ numeric_cols.length < 3 then .error "Dados insuficientes para PCA"
  else .ok { n_input_cols := numeric_cols.length }

/-- Result marker of `_analyze_temporal_patterns`: `{}` when the `timestamp`
column is absent; otherwise hourly/weekly/trend float statistics no claim
refers to (omitted). -/
structure TemporalPatterns where
  computed : Bool
deriving DecidableEq, Repr

instance {ε α : Type} [DecidableEq ε] [DecidableEq α] : DecidableEq (Except ε α) := fun x y =>
  match x, y with
  | .error a, .error b =>
      if h : a = b then .isTrue (by rw [h]) else .isFalse (fun he => by cases he; exact h rfl)
  | .ok a, .ok b =>
      if h : a = b then .isTrue (by rw [h]) else .isFalse (fun he => by cases he; exact h rfl)
  | .error _, .ok _ => .isFalse (fun he => by cases he)
  | .ok _, .error _ => .isFalse (fun he => by cases he)

/-- The `results` dict of `analyze_correlations`: one optional field per key
that can appear.  `error = some _` models the `{"error": ...}` return. -/
structure CorrResults where
  error : Option String
  correlation_matrix : Option CorrMatrix
  strong_correlations : Option (List StrongCorr)
  aqi_analysis : Option AqiAnalysis
  temporal_patterns : Option TemporalPatterns
  clustering : Option (Except String ClusterOk)
  pca : Option (Except String PcaOk)
deriving DecidableEq, Repr

/-- `CorrelationAnalyzer.analyze_correlations`.  The only gate before the
correlation matrix is `len(numeric_cols) < 2`: there is no row-count check at
this level.  Row-count (`< 10`) checks live inside the AQI sub-analysis,
clustering and PCA; clustering is additionally only attempted when
`len(df) > 50`, PCA when `len(numeric_cols) > 3`. -/
def analyze_correlations (pfun : PearsonStat → Nat → ℚ) (df : DataFrame) : CorrResults :=
  let numeric_cols := df.numericCols
  if numeric_cols.length < 2 then
    { error := some "Dados insuficientes para análise", correlation_matrix := none,
      strong_correlations := none, aqi_analysis := none, temporal_patterns := none,
      clustering := none, pca := none }
  else
    let corr_matrix := corrMatrixOf df numeric_cols
    { error := none
      correlation_matrix := some corr_matrix
      strong_correlations := some (find_strong_correlations corr_matrix (7/10))
      aqi_analysis :=
        if "aqi_us" ∈ df.colNames then some (analyze_aqi_correlations pfun df) else none
      temporal_patterns := some { computed := df.hasTimestamp }
      clustering :=
        if 50 < df.rows.length then some (perform_clustering df numeric_cols) else none
      pca :=
        if 3 < numeric_cols.length then some (perform_pca df numeric_cols) else none }

/-! ## Generic lemmas about the stable descending insertion sort -/

section StableSortLemmas

variable {α : Type}

lemma insertDescBy_perm (lt : α → α → Bool) (x : α) (l : List α) :
    List.Perm (insertDescBy lt x l) (x :: l) := by
  induction l with
  | nil => exact List.Perm.refl _
  | cons y ys ih =>
    unfold insertDescBy
    split
    · exact List.Perm.refl _
    · exact (List.Perm.cons y ih).trans (List.Perm.swap x y ys)

lemma foldl_insertDescBy_perm (lt : α → α → Bool) (l acc : List α) :
    List.Perm (l.foldl (fun acc x => insertDescBy lt x acc) acc) (acc ++ l) := by
  induction l generalizing acc with
  | nil => simp
  | cons x xs ih =>
    have h1 := ih (insertDescBy lt x acc)
    have h2 : List.Perm ((insertDescBy lt x acc) ++ xs) (acc ++ x :: xs) :=
      ((insertDescBy_perm lt x acc).append_right xs).trans List.perm_middle.symm
    exact h1.trans h2

lemma sortDescBy_perm (lt : α → α → Bool) (l : List α) :
    List.Perm (sortDescBy lt l) l := by
  simpa using foldl_insertDescBy_perm lt l []

lemma mem_sortDescBy {lt : α → α → Bool} {l : List α} {a : α} :
    a ∈ sortDescBy lt l ↔ a ∈ l :=
  (sortDescBy_perm lt l).mem_iff

variable (lt : α → α → Bool) (key : α → ℚ) (P : α → Prop)

lemma insertDescBy_sorted
    (hkey : ∀ a b, P a → P b → (lt a b = true ↔ key a < key b))
    {x : α} {l : List α} (hx : P x) (hl : ∀ a ∈ l, P a)
    (hs : l.Pairwise (fun a b => lt a b = false)) :
    (insertDescBy lt x l).Pairwise (fun a b => lt a b = false) := by
  induction l with
  | nil => simp [insertDescBy]
  | cons y ys ih =>
    have hy : P y := hl y (List.mem_cons_self y ys)
    have hys : ∀ a ∈ ys, P a := fun a ha => hl a (List.mem_cons_of_mem y ha)
    rw [List.pairwise_cons] at hs
    obtain ⟨hyb, hys_sorted⟩ := hs
    unfold insertDescBy
    split
    case isTrue h =>
      have hyx : key y < key x := (hkey y x hy hx).1 h
      rw [List.pairwise_cons]
      refine ⟨fun b hb => ?_, List.pairwise_cons.2 ⟨hyb, hys_sorted⟩⟩
      rcases List.mem_cons.1 hb with rfl | hb
      · rw [Bool.eq_false_iff]
        intro hc
        exact absurd ((hkey x b hx hy).1 hc) (by linarith)
      · have hxb : ¬ key y < key b := by
          rw [← hkey y b hy (hys b hb)]
          simp [hyb b hb]
        rw [Bool.eq_false_iff]
        intro hc
        exact absurd ((hkey x b hx (hys b hb)).1 hc) (by linarith)
    case isFalse h =>
      rw [List.pairwise_cons]
      refine ⟨fun b hb => ?_, ih hys hys_sorted⟩
      rcases List.mem_cons.1 ((insertDescBy_perm lt x ys).mem_iff.1 hb) with rfl | hb'
      · simpa using h
      · exact hyb b hb'

lemma foldl_insertDescBy_sorted
    (hkey : ∀ a b, P a → P b → (lt a b = true ↔ key a < key b))
    (l : List α) (hl : ∀ a ∈ l, P a) :
    ∀ acc, (∀ a ∈ acc, P a) → acc.Pairwise (fun a b => lt a b = false) →
      (l.foldl (fun acc x => insertDescBy lt x acc) acc).Pairwise
        (fun a b => lt a b = false) := by
  induction l with
  | nil => intro acc _ hacc; exact hacc
  | cons x xs ih =>
    intro acc haccP haccS
    have hx : P x := hl x (List.mem_cons_self x xs)
    have hxs : ∀ a ∈ xs, P a := fun a ha => hl a (List.mem_cons_of_mem x ha)
    refine ih hxs (insertDescBy lt x acc) (fun a ha => ?_)
      (insertDescBy_sorted lt key P hkey hx haccP haccS)
    rcases List.mem_cons.1 ((insertDescBy_perm lt x acc).mem_iff.1 ha) with rfl | ha'
    · exact hx
    · exact haccP a ha'

lemma sortDescBy_sorted
    (hkey : ∀ a b, P a → P b → (lt a b = true ↔ key a < key b))
    (l : List α) (hl : ∀ a ∈ l, P a) :
    (sortDescBy lt l).Pairwise (fun a b => lt a b = false) :=
  foldl_insertDescBy_sorted lt key P hkey l hl [] (by simp) (by simp)

end StableSortLemmas

/-! ## Range helpers -/

lemma drop_range (n i : Nat) : (List.range n).drop i = List.range' i (n - i) := by
  induction i with
  | zero => simp [List.range_eq_range']
  | succ i ih =>
    rw [show i + 1 = i + 1 from rfl, ← List.drop_drop, ih]
    cases h : n - i with
    | zero => have h2 : n - (i + 1) = 0 := by omega
              simp [h2]
    | succ k =>
      have h2 : n - (i + 1) = k := by omega
      rw [h2, List.range'_succ]
      simp

lemma mem_drop_range {n i j : Nat} : j ∈ (List.range n).drop i ↔ i ≤ j ∧ j < n := by
  rw [drop_range, List.mem_range'_1]
  omega

/-! ## Shared test fixtures and helpers for the theorems -/

/-- A reading whose only present metric is the AQI. -/
def mkAqiReading (v : ℚ) : Reading := { aqi_us := some v }

/-- Severity of the (at most one) air-quality alert for AQI `v` under the
default thresholds. -/
def aqiAlertLevel (v : ℚ) : Option AlertLevel :=
  (analyze_air_quality defaultThresholds (mkAqiReading v)).head?.map Alert.level

/-- Rank of an optional severity (0 when absent). -/
def rankOpt (o : Option AlertLevel) : Nat :=
  (o.map AlertLevel.rank).getD 0

/-! ## C10: AQI 0 is treated as missing (truthiness) -/

/-- C10: for every reading whose AQI field is present and equal to 0 (a valid
best-possible AQI value), `_analyze_air_quality` treats it the same as a
missing value and emits no air-quality alert, because the presence test
`if 'aqi_us' not in data or not data['aqi_us']` uses Python truthiness rather
than a null check. -/
theorem aqi_zero_treated_as_missing (th : Thresholds) (d : Reading)
    (hd : d.aqi_us = some 0) :
    analyze_air_quality th d = [] ∧
    analyze_air_quality th d = analyze_air_quality th { d with aqi_us := none } := by
  simp [analyze_air_quality, hd]

/-- Witness for C10: a concrete reading with AQI exactly 0 produces no alert. -/
theorem aqi_zero_treated_as_missing_witness :
    analyze_air_quality defaultThresholds (mkAqiReading 0) = [] :=
  (aqi_zero_treated_as_missing defaultThresholds (mkAqiReading 0) rfl).1

/-! ## C9: top-level evaluation degrades instead of raising -/

/-- C9: `analyze_current_conditions` is a total function of its inputs (in the
embedding, storage exceptions are the `Except.error` branches of the two
batch-load inputs, so "never raises" is the fact that the result type is a
plain alert list for every input): a failed or empty latest-data load yields
the empty alert list, and a failed historical load degrades to the snapshot
alerts only (the trend stage contributes nothing, as on fewer than 5 rows). -/
theorem analyze_current_conditions_degrades (th : Thresholds) (loc : Option String)
    (e e₂ : String) (histDb : Except String (List Reading)) (d : Reading) :
    analyze_current_conditions th loc (.error e) histDb = [] ∧
    analyze_current_conditions th loc (.ok none) histDb = [] ∧
    analyze_current_conditions th loc (.ok (some d)) (.error e₂) =
      analyze_air_quality th d ++ analyze_weather_conditions th d ∧
    analyze_trends loc [] = [] := by
  refine ⟨rfl, rfl, ?_, rfl⟩
  simp [analyze_current_conditions, get_latest_data, get_historical_data, analyze_trends]

/-! ## C8: wind thresholds short-circuit -/

/-- C8: for every reading with a non-null wind speed, the two ascending wind
thresholds (15 m/s strong, 25 m/s extreme) are evaluated top-down with
short-circuit (`if/elif`): at or above 25 m/s only the extreme alert is
emitted and no strong-wind alert accompanies it; between 15 and 25 only the
strong alert; below 15 no wind alert at all. -/
theorem wind_thresholds_short_circuit (d : Reading) (w : ℚ)
    (hd : d.wind_speed = some w) :
    (25 ≤ w →
      windExtremeAlert defaultThresholds (locationOf d) w
          ∈ analyze_weather_conditions defaultThresholds d ∧
      ∀ a ∈ analyze_weather_conditions defaultThresholds d, a.alert_type = .wind →
        a = windExtremeAlert defaultThresholds (locationOf d) w) ∧
    (15 ≤ w → w < 25 →
      windStrongAlert defaultThresholds (locationOf d) w
          ∈ analyze_weather_conditions defaultThresholds d ∧
      ∀ a ∈ analyze_weather_conditions defaultThresholds d, a.alert_type = .wind →
        a = windStrongAlert defaultThresholds (locationOf d) w) ∧
    (w < 15 →
      ∀ a ∈ analyze_weather_conditions defaultThresholds d, a.alert_type ≠ .wind) := by
  have htemp : ∀ a ∈ (match d.temperature with
      | none => ([] : List Alert)
      | some temp =>
        if defaultThresholds.temp_extreme_high ≤ temp then
          [tempHighAlert defaultThresholds (locationOf d) temp]
        else if temp ≤ defaultThresholds.temp_extreme_low then
          [tempLowAlert defaultThresholds (locationOf d) temp]
        else []), a.alert_type = .temperature := by
    rcases d.temperature with _ | t
    · simp
    · simp only
      split_ifs <;> simp [tempHighAlert, tempLowAlert]
  refine ⟨fun h25 => ?_, fun h15 h25 => ?_, fun h15 => ?_⟩ <;>
    simp only [analyze_weather_conditions, hd, List.mem_append] <;>
    [skip; skip; intro a ha] <;>
    rw [show (defaultThresholds.wind_extreme : ℚ) = 25 from rfl,
        show (defaultThresholds.wind_strong : ℚ) = 15 from rfl] at *
  · rw [if_pos h25]
    refine ⟨Or.inr (by simp), fun a ha hw => ?_⟩
    rcases ha with ha | ha
    · exact absurd (htemp a ha) (by rw [hw]; intro hc; cases hc)
    · simpa using ha
  · rw [if_neg (by linarith), if_pos h15]
    refine ⟨Or.inr (by simp), fun a ha hw => ?_⟩
    rcases ha with ha | ha
    · exact absurd (htemp a ha) (by rw [hw]; intro hc; cases hc)
    · simpa using ha
  · rcases ha with ha | ha
    · rw [htemp a ha]; intro hc; cases hc
    · rw [if_neg (by linarith), if_neg (by linarith)] at ha
      simp at ha

/-- Witness for C8: at 30 m/s exactly the extreme-wind alert is in the output
and every wind-typed alert equals it (so the strong alert is not also fired). -/
theorem wind_thresholds_short_circuit_witness :
    windExtremeAlert defaultThresholds (locationOf { wind_speed := some 30 }) 30
        ∈ analyze_weather_conditions defaultThresholds { wind_speed := some 30 } ∧
    ∀ a ∈ analyze_weather_conditions defaultThresholds { wind_speed := some 30 },
      a.alert_type = .wind →
        a = windExtremeAlert defaultThresholds (locationOf { wind_speed := some 30 }) 30 :=
  (wind_thresholds_short_circuit { wind_speed := some 30 } 30 rfl).1 (by norm_num)

/-! ## C7: at most one AQI alert, the highest bracket crossed -/

/-- C7: for every AQI value, `_analyze_air_quality` emits at most one alert —
the one for the highest bracket crossed among the cut points 51, 101, 151,
201, 301 — never also the alerts of lower brackets, and each emitted alert
carries the fixed recommendation bundle and severity of its bracket. -/
theorem aqi_highest_bracket_only (d : Reading) (v : ℚ) (hd : d.aqi_us = some v) :
    (analyze_air_quality defaultThresholds d).length ≤ 1 ∧
    (301 ≤ v → analyze_air_quality defaultThresholds d =
      [{ alert_type := .air_quality, level := .emergency,
         title := "🚨 QUALIDADE DO AR PERIGOSA", location := locationOf d,
         value := v, threshold := 301,
         recommendations := aqiRecommendations "hazardous" }]) ∧
    (201 ≤ v → v < 301 → analyze_air_quality defaultThresholds d =
      [{ alert_type := .air_quality, level := .critical,
         title := "⚠️ QUALIDADE DO AR MUITO PREJUDICIAL", location := locationOf d,
         value := v, threshold := 201,
         recommendations := aqiRecommendations "very_unhealthy" }]) ∧
    (151 ≤ v → v < 201 → analyze_air_quality defaultThresholds d =
      [{ alert_type := .air_quality, level := .critical,
         title := "⚠️ QUALIDADE DO AR PREJUDICIAL", location := locationOf d,
         value := v, threshold := 151,
         recommendations := aqiRecommendations "unhealthy" }]) ∧
    (101 ≤ v → v < 151 → analyze_air_quality defaultThresholds d =
      [{ alert_type := .air_quality, level := .warning,
         title := "⚠️ QUALIDADE DO AR PREJUDICIAL PARA GRUPOS SENSÍVEIS",
         location := locationOf d, value := v, threshold := 101,
         recommendations := aqiRecommendations "unhealthy_sensitive" }]) ∧
    (51 ≤ v → v < 101 → analyze_air_quality defaultThresholds d =
      [{ alert_type := .air_quality, level := .info,
         title := "ℹ️ QUALIDADE DO AR MODERADA", location := locationOf d,
         value := v, threshold := 51,
         recommendations := aqiRecommendations "moderate" }]) ∧
    (v < 51 → analyze_air_quality defaultThresholds d = []) := by
  simp only [analyze_air_quality, hd, defaultThresholds]
  refine ⟨?_, ?_, ?_, ?_, ?_, ?_, ?_⟩ <;>
    [skip; intro h1; intro h1 h2; intro h1 h2; intro h1 h2; intro h1 h2; intro h1] <;>
    split_ifs with h h' h'' h''' h'''' h''''' <;>
    first
      | rfl
      | (exfalso; first | linarith | (subst h; linarith))
      | simp

/-- Witness for C7: the spec scenario `Reading{aqi=320}` yields exactly the
emergency-level hazardous-bracket alert. -/
theorem aqi_highest_bracket_only_witness :
    analyze_air_quality defaultThresholds (mkAqiReading 320) =
      [{ alert_type := .air_quality, level := .emergency,
         title := "🚨 QUALIDADE DO AR PERIGOSA",
         location := locationOf (mkAqiReading 320),
         value := 320, threshold := 301,
         recommendations := aqiRecommendations "hazardous" }] :=
  (aqi_highest_bracket_only (mkAqiReading 320) 320 rfl).2.1 (by norm_num)

/-! ## C1: one alert per AQI value?  Only from 51 up -/

/-- Counterexample for C1: the claim demands exactly one air-quality alert for
every present AQI value, but the reading with AQI 30 (present and truthy)
produces no alert at all — values below the first cut point 51 fire nothing. -/
theorem aqi_exactly_one_alert_counterexample :
    ¬ (analyze_air_quality defaultThresholds (mkAqiReading 30)).length = 1 := by
  decide

/-- C1 (amended): for every present nonzero AQI value `v`, `_analyze_air_quality`
emits exactly one air-quality alert when `51 ≤ v` and none when `v < 51`, and
on the alert-emitting range the severity is monotonically non-decreasing in
`v` across the five brackets 51/101/151/201/301
(info, warning, critical, critical, emergency). -/
theorem aqi_alert_count_and_monotone (v w : ℚ) :
    (v ≠ 0 → v < 51 → analyze_air_quality defaultThresholds (mkAqiReading v) = []) ∧
    (51 ≤ v → (analyze_air_quality defaultThresholds (mkAqiReading v)).length = 1) ∧
    (51 ≤ v → v ≤ w → rankOpt (aqiAlertLevel v) ≤ rankOpt (aqiAlertLevel w)) := by
  refine ⟨fun hv h51 => ?_, fun h51 => ?_, fun h51 hvw => ?_⟩
  · simp only [analyze_air_quality, mkAqiReading, defaultThresholds]
    split_ifs <;> first | rfl | (exfalso; linarith)
  · simp only [analyze_air_quality, mkAqiReading, defaultThresholds]
    split_ifs <;> first | rfl | (exfalso; linarith)
  · simp only [aqiAlertLevel, analyze_air_quality, mkAqiReading, defaultThresholds]
    split_ifs <;>
      first
        | (exfalso; linarith)
        | simp [rankOpt, AlertLevel.rank]

/-- Witness for C1: at AQI 60 exactly one alert fires, none fires at AQI 30,
and severity does not decrease from AQI 60 to AQI 250. -/
theorem aqi_alert_count_and_monotone_witness :
    analyze_air_quality defaultThresholds (mkAqiReading 30) = [] ∧
    (analyze_air_quality defaultThresholds (mkAqiReading 60)).length = 1 ∧
    rankOpt (aqiAlertLevel 60) ≤ rankOpt (aqiAlertLevel 250) :=
  ⟨(aqi_alert_count_and_monotone 30 30).1 (by norm_num) (by norm_num),
   (aqi_alert_count_and_monotone 60 60).2.1 (by norm_num),
   (aqi_alert_count_and_monotone 60 250).2.2 (by norm_num) (by norm_num)⟩

/-! ## C5: temperature bounds — sequential, not independent -/

/-- The claim's reading of the temperature block, in its own words: the upper
and lower bound are checked independently, so the emitted alerts are the union
of the two independent checks (either, both, or neither may fire).  Used only
to compare against the analyzer. -/
def temperatureIndependentClaim (th : Thresholds) (location : String) (t : Option ℚ) : List Alert :=
  match t with
  | none => []
  | some temp =>
    (if th.temp_extreme_high ≤ temp then [tempHighAlert th location temp] else []) ++
    (if temp ≤ th.temp_extreme_low then [tempLowAlert th location temp] else [])

/-- Threshold table with the bounds moved so that the upper and lower
condition overlap (`self.thresholds` is plain mutable instance state). -/
def overlappingThresholds : Thresholds :=
  { defaultThresholds with temp_extreme_high := 0, temp_extreme_low := 10 }

/-- Counterexample for C5: the claim says the two bounds are independent
checks so both may fire on one reading; but the source uses an `if/elif`
chain.  With bounds 0 and 10 a temperature of 5 satisfies both conditions,
yet the analyzer emits only the high-temperature alert, while the claimed
independent evaluation would emit both. -/
theorem temperature_bounds_not_independent :
    analyze_weather_conditions overlappingThresholds { temperature := some 5 } =
      [tempHighAlert overlappingThresholds "Local, " 5] ∧
    temperatureIndependentClaim overlappingThresholds "Local, " (some 5) =
      [tempHighAlert overlappingThresholds "Local, " 5,
       tempLowAlert overlappingThresholds "Local, " 5] ∧
    analyze_weather_conditions overlappingThresholds { temperature := some 5 } ≠
      temperatureIndependentClaim overlappingThresholds "Local, " (some 5) := by
  refine ⟨?_, ?_, ?_⟩ <;> decide

/-- C5 (amended): the upper bound (default 40°C) and lower bound (default
−10°C) are checked in sequence (`if/elif`), so at most one temperature alert
fires per reading, each at warning severity; under the default thresholds the
two conditions are mutually exclusive, so the sequential evaluation coincides
extensionally with independent checks there: 45°C fires the high-temperature
warning, −15°C the low-temperature warning, and 22°C neither. -/
theorem temperature_bounds_sequential (th : Thresholds) (d : Reading) (t : ℚ)
    (hd : d.temperature = some t) (hw : d.wind_speed = none) :
    (analyze_weather_conditions th d =
      if th.temp_extreme_high ≤ t then [tempHighAlert th (locationOf d) t]
      else if t ≤ th.temp_extreme_low then [tempLowAlert th (locationOf d) t]
      else []) ∧
    (analyze_weather_conditions th d).length ≤ 1 ∧
    (∀ a ∈ analyze_weather_conditions th d, a.level = .warning) ∧
    (analyze_weather_conditions defaultThresholds d =
      temperatureIndependentClaim defaultThresholds (locationOf d) (some t)) ∧
    analyze_weather_conditions defaultThresholds { temperature := some 45 } =
      [tempHighAlert defaultThresholds "Local, " 45] ∧
    analyze_weather_conditions defaultThresholds { temperature := some (-15) } =
      [tempLowAlert defaultThresholds "Local, " (-15)] ∧
    analyze_weather_conditions defaultThresholds { temperature := some 22 } = [] := by
  refine ⟨?_, ?_, ?_, ?_, by decide, by decide, by decide⟩
  · simp only [analyze_weather_conditions, hd, hw]
    split_ifs <;> simp
  · simp only [analyze_weather_conditions, hd, hw]
    split_ifs <;> simp
  · simp only [analyze_weather_conditions, hd, hw]
    split_ifs <;> simp [tempHighAlert, tempLowAlert]
  · simp only [analyze_weather_conditions, temperatureIndependentClaim, hd, hw]
    rw [show (defaultThresholds.temp_extreme_high : ℚ) = 40 from rfl,
        show (defaultThresholds.temp_extreme_low : ℚ) = -10 from rfl]
    split_ifs <;> first | (exfalso; linarith) | simp

/-- Witness for C5 (amended): instantiated at the default thresholds and a
reading of 45°C. -/
theorem temperature_bounds_sequential_witness :
    analyze_weather_conditions defaultThresholds { temperature := some 45 } =
      temperatureIndependentClaim defaultThresholds
        (locationOf { temperature := some 45 }) (some 45) :=
  (temperature_bounds_sequential defaultThresholds { temperature := some 45 } 45
    rfl rfl).2.2.2.1

/-! ## C3: trend detector -/

/-- An all-present AQI time series, as historical rows. -/
lemma filterMap_aqi_map_mkAqiReading (xs : List ℚ) :
    (xs.map mkAqiReading).filterMap (·.aqi_us) = xs := by
  induction xs with
  | nil => rfl
  | cons x t ih => simpa [mkAqiReading] using ih

/-- C3: for every ordered AQI time series (all points present): with fewer
than 5 points the trend detector emits no alert regardless of slope; with at
least 5 points the total drift is the fitted ordinary-least-squares slope
(against index position) multiplied by the series length, and exactly one
warning-level trend-anomaly alert fires iff that drift strictly exceeds +20. -/
theorem trend_detector_drift (loc : Option String) (xs : List ℚ) :
    (xs.length < 5 → analyze_trends loc (xs.map mkAqiReading) = []) ∧
    (5 ≤ xs.length →
      analyze_trends loc (xs.map mkAqiReading) =
        (if 20 < polyfitSlope xs * xs.length then
          [aqiTrendAlert loc (polyfitSlope xs * xs.length)] else []) ∧
      ((analyze_trends loc (xs.map mkAqiReading)).length = 1 ↔
        20 < polyfitSlope xs * xs.length)) := by
  constructor
  · intro h5
    simp only [analyze_trends, List.length_map]
    rw [if_pos h5]
  · intro h5
    have hlen : ¬ (xs.map mkAqiReading).length < 5 := by
      simp only [List.length_map]; omega
    have hct : calculate_trend xs = polyfitSlope xs * xs.length := by
      unfold calculate_trend
      rw [if_neg (by omega)]
    constructor
    · simp only [analyze_trends, filterMap_aqi_map_mkAqiReading]
      rw [if_neg hlen, hct]
    · simp only [analyze_trends, filterMap_aqi_map_mkAqiReading]
      rw [if_neg hlen, hct]
      split_ifs with h
      · simp [h]
      · simpa using h

/-- Witness for C3: the spec scenario, the 6-point AQI series
[10, 12, 14, 16, 18, 40], whose exact drift is 204/7 > 20, fires exactly one
alert; and the 4-point series [0, 100, 200, 300] with steep slope fires none. -/
theorem trend_detector_drift_witness :
    (analyze_trends none ([10, 12, 14, 16, 18, 40].map mkAqiReading)).length = 1 ∧
    analyze_trends none ([0, 100, 200, 300].map mkAqiReading) = [] :=
  ⟨((trend_detector_drift none [10, 12, 14, 16, 18, 40]).2 (by norm_num)).2.mpr
      (by norm_num [polyfitSlope, List.range_succ]),
   (trend_detector_drift none [0, 100, 200, 300]).1 (by norm_num)⟩

/-! ## C6: strong-correlation extraction -/

/-- Well-formedness of a correlation matrix: every non-NaN entry carries
positive variance statistics.  True of every matrix `df.corr()` produces,
since a zero-variance column yields a NaN entry. -/
def CorrMatrix.wfEntries (m : CorrMatrix) : Prop :=
  ∀ i j s, m.entry i j = some s → 0 < s.varx ∧ 0 < s.vary

lemma statAbsLt_iff (a b : PearsonStat) (ha : 0 < a.varx ∧ 0 < a.vary)
    (hb : 0 < b.varx ∧ 0 < b.vary) :
    (statAbsLt a b = true) ↔ a.absSq < b.absSq := by
  unfold statAbsLt PearsonStat.absSq
  simp only [decide_eq_true_eq]
  rw [div_lt_div_iff₀ (mul_pos ha.1 ha.2) (mul_pos hb.1 hb.2)]

lemma mem_rawStrongCorrs {m : CorrMatrix} {t : ℚ} {r : StrongCorr} :
    r ∈ rawStrongCorrs m t ↔
      ∃ i j s, i < j ∧ j < m.cols.length ∧ m.entry i j = some s ∧
        s.absGe t = true ∧ r = mkStrongCorr m i j s := by
  unfold rawStrongCorrs
  rw [List.mem_flatMap]
  constructor
  · rintro ⟨i, _, hr⟩
    rw [List.mem_filterMap] at hr
    obtain ⟨j, hj, hjr⟩ := hr
    rw [mem_drop_range] at hj
    cases he : m.entry i j with
    | none => rw [he] at hjr; cases hjr
    | some s =>
      rw [he] at hjr
      dsimp only at hjr
      by_cases hge : s.absGe t = true
      · rw [if_pos hge] at hjr
        exact ⟨i, j, s, by omega, hj.2, he, hge, (Option.some.inj hjr).symm⟩
      · rw [if_neg hge] at hjr; cases hjr
  · rintro ⟨i, j, s, hij, hjn, he, hge, rfl⟩
    refine ⟨i, List.mem_range.2 (by omega), ?_⟩
    rw [List.mem_filterMap]
    exact ⟨j, mem_drop_range.2 ⟨by omega, hjn⟩, by simp [he, hge]⟩

lemma rawStrongCorrs_posVar {m : CorrMatrix} {t : ℚ} (hm : m.wfEntries) :
    ∀ r ∈ rawStrongCorrs m t, 0 < r.correlation.varx ∧ 0 < r.correlation.vary := by
  intro r hr
  obtain ⟨i, j, s, _, _, he, _, rfl⟩ := mem_rawStrongCorrs.1 hr
  simpa [mkStrongCorr] using hm i j s he

/-- The upper-triangle index pairs in row-major order, written as a flat
filtered enumeration (used to state the tie-break order independently of the
source's nested-loop shape). -/
def upperTrianglePairsRM (n : Nat) : List (Nat × Nat) :=
  (List.range n).flatMap (fun i =>
    (List.range n).filterMap (fun j => if i < j then some (i, j) else none))

/-- The qualifying records in row-major upper-triangle order. -/
def rowMajorCandidates (m : CorrMatrix) (t : ℚ) : List StrongCorr :=
  (upperTrianglePairsRM m.cols.length).filterMap (fun p =>
    match m.entry p.1 p.2 with
    | none => none
    | some s => if s.absGe t then some (mkStrongCorr m p.1 p.2 s) else none)

lemma filterMap_range_lt {β : Type} (n i : Nat) (f : Nat → Option β) :
    (List.range n).filterMap (fun j => if i < j then f j else none) =
      ((List.range n).drop (i + 1)).filterMap f := by
  conv_lhs => rw [← List.take_append_drop (i + 1) (List.range n)]
  rw [List.filterMap_append]
  have h0 : ((List.range n).take (i + 1)).filterMap
      (fun j => if i < j then f j else none) = [] := by
    rw [List.filterMap_eq_nil_iff]
    intro j hj
    rw [List.take_range, List.mem_range] at hj
    rw [if_neg (by omega)]
  rw [h0, List.nil_append]
  refine List.filterMap_congr (fun j hj => ?_)
  rw [mem_drop_range] at hj
  rw [if_pos (by omega)]

lemma rawStrongCorrs_eq_rowMajor (m : CorrMatrix) (t : ℚ) :
    rawStrongCorrs m t = rowMajorCandidates m t := by
  unfold rawStrongCorrs rowMajorCandidates upperTrianglePairsRM
  rw [List.filterMap_flatMap]
  congr 1
  funext i
  rw [List.filterMap_filterMap]
  refine ((List.filterMap_congr fun j hj => ?_).trans
    (filterMap_range_lt m.cols.length i _)).symm
  split <;> rfl

/-- C6 (amended): `_find_strong_correlations` at threshold 0.7 returns exactly
the upper-triangle pairs whose entry satisfies `abs(r) ≥ 0.7`, each tagged
"strong" when `abs(r) ≥ 0.8` and "moderate" otherwise and "positive" /
"negative" by the sign of r, sorted descending by absolute magnitude with
ties broken by ROW-major upper-triangle iteration order (the sort is stable
over the row-major scan `for i: for j in range(i+1, n)`). -/
theorem find_strong_correlations_spec (m : CorrMatrix) (hm : m.wfEntries) :
    (find_strong_correlations m (7/10)).Pairwise
      (fun a b => statAbsLt a.correlation b.correlation = false) ∧
    (∀ r, r ∈ find_strong_correlations m (7/10) ↔
      ∃ i j s, i < j ∧ j < m.cols.length ∧ m.entry i j = some s ∧
        s.absGe (7/10) = true ∧ r = mkStrongCorr m i j s) ∧
    (∀ r ∈ find_strong_correlations m (7/10),
      r.strength = (if r.correlation.absGe (4/5) then "strong" else "moderate") ∧
      r.direction = (if 0 < r.correlation.cov then "positive" else "negative") ∧
      r.correlation.absGe (7/10) = true) ∧
    find_strong_correlations m (7/10) =
      sortDescBy (fun a b => statAbsLt a.correlation b.correlation)
        (rowMajorCandidates m (7/10)) := by
  refine ⟨?_, fun r => ?_, fun r hr => ?_, ?_⟩
  · exact sortDescBy_sorted _ (fun r => r.correlation.absSq)
      (fun r => 0 < r.correlation.varx ∧ 0 < r.correlation.vary)
      (fun a b ha hb => statAbsLt_iff a.correlation b.correlation ha hb)
      _ (rawStrongCorrs_posVar hm)
  · rw [find_strong_correlations, mem_sortDescBy, mem_rawStrongCorrs]
  · rw [find_strong_correlations, mem_sortDescBy, mem_rawStrongCorrs] at hr
    obtain ⟨i, j, s, _, _, _, hge, rfl⟩ := hr
    exact ⟨rfl, rfl, hge⟩
  · rw [find_strong_correlations, rawStrongCorrs_eq_rowMajor]

/-- A 4-column correlation matrix with two tied qualifying pairs,
(a, d) and (b, c), both with `abs(r) = 0.9`. -/
def tieMatrix : CorrMatrix where
  cols := ["a", "b", "c", "d"]
  entries :=
    [[some ⟨1, 1, 1⟩, some ⟨0, 1, 1⟩, some ⟨0, 1, 1⟩, some ⟨9, 10, 10⟩],
     [some ⟨0, 1, 1⟩, some ⟨1, 1, 1⟩, some ⟨9, 10, 10⟩, some ⟨0, 1, 1⟩],
     [some ⟨0, 1, 1⟩, some ⟨9, 10, 10⟩, some ⟨1, 1, 1⟩, some ⟨0, 1, 1⟩],
     [some ⟨9, 10, 10⟩, some ⟨0, 1, 1⟩, some ⟨0, 1, 1⟩, some ⟨1, 1, 1⟩]]

/-- Counterexample for C6: the claim says ties are broken by COLUMN-major
upper-triangle iteration order, but the source scans the upper triangle
row-major (`for i in range(n): for j in range(i+1, n)`) and Python's stable
sort keeps that order among ties: on `tieMatrix` the source returns the tied
pairs as [(a, d), (b, c)], while the claimed column-major order is
[(b, c), (a, d)]. -/
theorem find_strong_tiebreak_counterexample :
    find_strong_correlations tieMatrix (7/10) ≠ findStrongColMajorClaim tieMatrix (7/10) ∧
    (find_strong_correlations tieMatrix (7/10)).map (fun r => (r.var1, r.var2)) =
      [("a", "d"), ("b", "c")] ∧
    (findStrongColMajorClaim tieMatrix (7/10)).map (fun r => (r.var1, r.var2)) =
      [("b", "c"), ("a", "d")] := by
  refine ⟨?_, ?_, ?_⟩ <;> with_unfolding_all decide

lemma wfEntries_of_all (m : CorrMatrix)
    (h : m.entries.all (fun row => row.all (fun o =>
      o.all (fun s => decide (0 < s.varx) && decide (0 < s.vary)))) = true) :
    m.wfEntries := by
  intro i j s hs
  unfold CorrMatrix.entry at hs
  rw [List.all_eq_true] at h
  by_cases hi : i < m.entries.length
  · have h1 : m.entries.getD i [] = m.entries[i] := List.getD_eq_getElem _ _ hi
    rw [h1] at hs
    have hrow := h _ (List.getElem_mem hi)
    rw [List.all_eq_true] at hrow
    by_cases hj : j < m.entries[i].length
    · have h2 : m.entries[i].getD j none = m.entries[i][j] := List.getD_eq_getElem _ _ hj
      rw [h2] at hs
      have ho := hrow _ (List.getElem_mem hj)
      rw [hs] at ho
      simpa using ho
    · have h2 : m.entries[i].getD j none = none := List.getD_eq_default _ _ (by omega)
      rw [h2] at hs
      cases hs
  · have h1 : m.entries.getD i [] = [] := List.getD_eq_default _ _ (by omega)
    rw [h1] at hs
    simp [List.getD] at hs

/-- The correlation matrix of the spec's perfectly anti-correlated example
columns temp = [10, 20, 30, 40], aqi = [100, 80, 60, 40] (r = −1 exactly:
cov² = varx·vary with cov < 0). -/
def negPairMatrix : CorrMatrix where
  cols := ["temperature", "aqi_us"]
  entries :=
    [[some ⟨1, 1, 1⟩, some ⟨-4000, 2000, 8000⟩],
     [some ⟨-4000, 2000, 8000⟩, some ⟨1, 1, 1⟩]]

/-- Witness for C6 (amended), instantiated on the spec's anti-correlated
example: the (temperature, aqi_us) pair with r = −1 is extracted and is
tagged strong/negative. -/
theorem find_strong_correlations_spec_witness :
    mkStrongCorr negPairMatrix 0 1 ⟨-4000, 2000, 8000⟩
        ∈ find_strong_correlations negPairMatrix (7/10) ∧
    (mkStrongCorr negPairMatrix 0 1 ⟨-4000, 2000, 8000⟩).strength = "strong" ∧
    (mkStrongCorr negPairMatrix 0 1 ⟨-4000, 2000, 8000⟩).direction = "negative" :=
  ⟨((find_strong_correlations_spec negPairMatrix
        (wfEntries_of_all _ (by with_unfolding_all decide))).2.1 _).2
      ⟨0, 1, ⟨-4000, 2000, 8000⟩, by norm_num, by with_unfolding_all decide, by rfl,
       by with_unfolding_all decide, rfl⟩,
   by with_unfolding_all decide, by with_unfolding_all decide⟩

/-! ## Helper lemmas about `allSomePairs` -/

lemma allSomePairs_eq_none {l : List (Option ℚ × Option ℚ)}
    (hex : ∃ pr ∈ l, pr.1 = none ∨ pr.2 = none) : allSomePairs l = none := by
  induction l with
  | nil => simp at hex
  | cons p rest ih =>
    obtain ⟨pr, hpr, hn⟩ := hex
    rcases p with ⟨a, b⟩
    rcases List.mem_cons.1 hpr with heq | hpr'
    · rw [heq] at hn
      cases a <;> cases b <;> simp_all [allSomePairs]
    · cases a <;> cases b <;> simp [allSomePairs, ih ⟨pr, hpr', hn⟩]

lemma allSomePairs_filterMap : ∀ (l : List (Option ℚ × Option ℚ)) (ps : List (ℚ × ℚ)),
    allSomePairs l = some ps →
    ps = l.filterMap (fun pr =>
      match pr with
      | (some a, some b) => some (a, b)
      | _ => none) := by
  intro l
  induction l with
  | nil =>
    intro ps h
    simp [allSomePairs] at h
    simp [h.symm]
  | cons p rest ih =>
    intro ps h
    rcases p with ⟨a, b⟩
    cases a with
    | none => simp [allSomePairs] at h
    | some a =>
      cases b with
      | none => simp [allSomePairs] at h
      | some b =>
        cases hr : allSomePairs rest with
        | none => rw [allSomePairs, hr] at h; simp at h
        | some qs =>
          rw [allSomePairs, hr] at h
          simp only [Option.map_some'] at h
          obtain rfl := (Option.some.inj h).symm
          simp [ih qs hr]

lemma allSomePairs_eq_some_imp {xs ys : List (Option ℚ)} {ps : List (ℚ × ℚ)}
    (h : allSomePairs (xs.zip ys) = some ps) : ps = completePairs xs ys :=
  allSomePairs_filterMap (xs.zip ys) ps h

/-! ## C2: error policy of `analyze_correlations` -/

/-- A fixed stand-in for scipy's p-value function (the analyses only store
the value and compare it to 0.05, so counterexamples may fix it). -/
def constPval : PearsonStat → Nat → ℚ := fun _ _ => 1

/-- A 3-row, 2-numeric-column batch: fewer than 10 rows but enough columns. -/
def smallBatch : DataFrame where
  colNames := ["temperature", "humidity"]
  rows := [[some 1, some 2], [some 2, some 3], [some 3, some 5]]

/-- A single-numeric-column batch. -/
def oneColBatch : DataFrame where
  colNames := ["temperature"]
  rows := [[some 1], [some 2], [some 3]]

/-- Counterexample for C2: the claim says every batch with fewer than 10 rows
yields a result with an `error` key and no `correlation_matrix`; but
`analyze_correlations` only checks the column count, so a 3-row batch with 2
numeric columns comes back with no `error` key and with a
`correlation_matrix`. -/
theorem analyze_correlations_small_batch_counterexample :
    smallBatch.rows.length < 10 ∧
    (analyze_correlations constPval smallBatch).error = none ∧
    (analyze_correlations constPval smallBatch).correlation_matrix.isSome = true := by
  refine ⟨by norm_num [smallBatch], ?_, ?_⟩ <;> with_unfolding_all decide

/-- C2 (amended): `analyze_correlations` returns the structured
`{"error": ...}` result iff fewer than 2 usable numeric columns remain, with
no row-count check at the top level: with at least 2 numeric columns it always
returns a correlation matrix, whatever the row count.  The `< 10`-row checks
live in the sub-stages, which return structured errors instead of raising:
the AQI analysis errors when fewer than 10 AQI-complete rows remain,
clustering (attempted only above 50 rows) and PCA (attempted only above 3
numeric columns) error when fewer than 10 all-complete rows remain. -/
theorem analyze_correlations_error_policy (pfun : PearsonStat → Nat → ℚ) (df : DataFrame) :
    (df.numericCols.length < 2 →
      analyze_correlations pfun df =
        { error := some "Dados insuficientes para análise", correlation_matrix := none,
          strong_correlations := none, aqi_analysis := none, temporal_patterns := none,
          clustering := none, pca := none }) ∧
    (2 ≤ df.numericCols.length →
      (analyze_correlations pfun df).error = none ∧
      (analyze_correlations pfun df).correlation_matrix =
        some (corrMatrixOf df df.numericCols) ∧
      (analyze_correlations pfun df).clustering =
        (if 50 < df.rows.length then some (perform_clustering df df.numericCols) else none) ∧
      (analyze_correlations pfun df).pca =
        (if 3 < df.numericCols.length then some (perform_pca df df.numericCols) else none)) ∧
    (∀ aqiIdx, df.colNames.findIdx? (· = "aqi_us") = some aqiIdx →
      "aqi_us" ∈ df.colNames →
      ¬ (df.getCol "aqi_us").all (·.isNone) = true →
      (df.rows.filter (fun r => (r.getD aqiIdx none).isSome)).length < 10 →
      analyze_aqi_correlations pfun df =
        { error := some "Dados insuficientes para análise de AQI",
          weather_correlations := none }) ∧
    ((df.dropnaRows df.numericCols).length < 10 →
      perform_clustering df df.numericCols = .error "Dados insuficientes para clustering") ∧
    ((df.dropnaRows df.numericCols).length < 10 ∨ df.numericCols.length < 3 →
      perform_pca df df.numericCols = .error "Dados insuficientes para PCA") := by
  refine ⟨fun h => ?_, fun h => ?_, fun aqiIdx hidx hmem hnotall hlen => ?_, fun h => ?_,
    fun h => ?_⟩
  · rw [analyze_correlations, if_pos h]
  · rw [analyze_correlations, if_neg (by omega)]
    exact ⟨rfl, rfl, rfl, rfl⟩
  · rw [analyze_aqi_correlations, if_neg (by
      rw [not_or]
      exact ⟨by simpa using hmem, hnotall⟩), hidx]
    dsimp only
    rw [if_pos hlen]
  · rw [perform_clustering, if_pos h]
  · rw [perform_pca, if_pos h]

/-- Witness for C2 (amended): a single-column batch errors out; the 3-row
2-column batch gets a correlation matrix and no error. -/
theorem analyze_correlations_error_policy_witness :
    analyze_correlations constPval oneColBatch =
      { error := some "Dados insuficientes para análise", correlation_matrix := none,
        strong_correlations := none, aqi_analysis := none, temporal_patterns := none,
        clustering := none, pca := none } ∧
    (analyze_correlations constPval smallBatch).error = none :=
  ⟨(analyze_correlations_error_policy constPval oneColBatch).1 (by decide),
   ((analyze_correlations_error_policy constPval smallBatch).2.1 (by decide)).1⟩

/-! ## C4: AQI-vs-predictor analysis and null handling -/

/-- A 10-row batch: AQI complete, temperature with one null cell. -/
def nullPredictorBatch : DataFrame where
  colNames := ["aqi_us", "temperature"]
  rows := [[some 10, some 1], [some 20, some 2], [some 30, none], [some 40, some 4],
           [some 55, some 5], [some 60, some 6], [some 72, some 7], [some 80, some 8],
           [some 95, some 9], [some 100, some 11]]

/-- Counterexample for C4: the claim says rows with a null in either column
are dropped pairwise before the Pearson test; the source only drops rows with
a null AQI (`dropna(subset=['aqi_us'])`), so a null predictor cell reaches
`scipy.stats.pearsonr` and poisons the test to NaN.  On `nullPredictorBatch`
the code's temperature entry is the NaN triple (no statistic, no p-value, not
significant), while the claimed pairwise-dropped test computes a real
coefficient on the 9 complete pairs. -/
theorem aqi_pairwise_drop_counterexample :
    (analyze_aqi_correlations constPval nullPredictorBatch).weather_correlations =
      some [("temperature", { stat := none, p_value := none, significant := false })] ∧
    (aqiPairwiseClaim constPval nullPredictorBatch "temperature").stat.isSome = true ∧
    (analyze_aqi_correlations constPval nullPredictorBatch).weather_correlations ≠
      some [("temperature", aqiPairwiseClaim constPval nullPredictorBatch "temperature")] := by
  refine ⟨?_, ?_, ?_⟩ <;> with_unfolding_all decide

/-- C4 (amended): `_analyze_aqi_correlations` drops only the rows whose AQI is
null (`dropna` on the AQI column alone) and runs the Pearson test per factor
on the retained rows; a null in a predictor column is not dropped and poisons
that factor's test to NaN, which is marked not significant.  A factor entry is
marked significant iff its p-value exists and is strictly below 0.05; and
whenever no cell is missing, the tested pairs coincide with the
pairwise-complete pairs of the claim. -/
theorem aqi_correlations_null_policy (pfun : PearsonStat → Nat → ℚ) (df : DataFrame)
    (aqiIdx : Nat) (hidx : df.colNames.findIdx? (· = "aqi_us") = some aqiIdx)
    (hmem : "aqi_us" ∈ df.colNames)
    (hnotall : ¬ (df.getCol "aqi_us").all (·.isNone) = true)
    (hlen : ¬ (df.rows.filter (fun r => (r.getD aqiIdx none).isSome)).length < 10) :
    ((analyze_aqi_correlations pfun df).error = none ∧
     (analyze_aqi_correlations pfun df).weather_correlations =
       some (weatherFactors.filterMap (fun factor =>
         if factor ∈ df.colNames then
           some (factor, pearsonrModel pfun
             (DataFrame.getCol
               { df with rows := df.rows.filter (fun r => (r.getD aqiIdx none).isSome) }
               "aqi_us")
             (DataFrame.getCol
               { df with rows := df.rows.filter (fun r => (r.getD aqiIdx none).isSome) }
               factor))
         else none))) ∧
    (∀ xs ys, (pearsonrModel pfun xs ys).significant = true ↔
      ∃ p, (pearsonrModel pfun xs ys).p_value = some p ∧ p < 1/20) ∧
    (∀ xs ys, (∃ pr ∈ xs.zip ys, pr.1 = none ∨ pr.2 = none) →
      pearsonrModel pfun xs ys = { stat := none, p_value := none, significant := false }) ∧
    (∀ xs ys ps, allSomePairs (xs.zip ys) = some ps → ps = completePairs xs ys) := by
  refine ⟨?_, fun xs ys => ?_, fun xs ys hex => ?_, fun xs ys ps hps => ?_⟩
  · rw [analyze_aqi_correlations, if_neg (by
      rw [not_or]
      exact ⟨by simpa using hmem, hnotall⟩), hidx]
    dsimp only
    rw [if_neg hlen]
    exact ⟨rfl, rfl⟩
  · rw [pearsonrModel]
    cases hap : allSomePairs (xs.zip ys) with
    | none => simp
    | some ps =>
      dsimp only
      split_ifs with hdeg
      · simp
      · simp
  · rw [pearsonrModel, allSomePairs_eq_none hex]
  · exact allSomePairs_eq_some_imp hps

/-- Witness for C4 (amended): instantiated on the 10-row batch whose AQI
column is complete — the analysis returns no error there. -/
theorem aqi_correlations_null_policy_witness :
    (analyze_aqi_correlations constPval nullPredictorBatch).error = none :=
  (aqi_correlations_null_policy constPval nullPredictorBatch 0
    (by decide) (by decide) (by decide) (by decide)).1.1

end ClimateAnalytics
